import Mathlib

/-!
Shallow embedding of the growth-index repository.

* `GrowthIndex` embeds the shared math module (`growth-index` library file):
  `stdev`, `mean`, `calculateConsistencyFactor`, `calculateQualityFactor`,
  `calculateGrowthIndex`, `compareCompanies`, `interpretGrowthIndex`.
* `YahooRoute` embeds the pure core of `src/routes/api/lookup-yahoo/+server.ts`:
  `calcCAGR`, `calcYoY`, `estimateWACC`, the metric derivation inside
  `fetchCompanyData`, and the batch logic of the `POST` handler.

JavaScript numbers are modelled as real numbers; `Math.round` is modelled as
`fun x => ⌊x + 1/2⌋` (JavaScript rounds halves toward positive infinity).
-/

namespace GrowthIndex

structure GrowthMetrics where
  revenueCagr : ℝ
  epsCagr : ℝ
  fcfCagr : ℝ
  marginDelta : ℝ
  annualRevenueGrowth : List ℝ
  roic : ℝ
  wacc : ℝ

structure Weights where
  revenue : ℝ
  eps : ℝ
  fcf : ℝ
  margin : ℝ

structure Components where
  revenue : ℝ
  eps : ℝ
  fcf : ℝ
  margin : ℝ

structure GrowthIndexResult where
  growthIndex : ℝ
  baseScore : ℝ
  consistencyFactor : ℝ
  qualityFactor : ℝ
  components : Components

structure CompanyInput where
  name : String
  ticker : Option String
  metrics : GrowthMetrics

structure CompanyResult where
  name : String
  ticker : Option String
  result : GrowthIndexResult
  metrics : GrowthMetrics

def DEFAULT_WEIGHTS : Weights := ⟨0.35, 0.30, 0.20, 0.15⟩

/-- JavaScript `Math.round`: round to the nearest integer, halves toward `+∞`. -/
noncomputable def jsRound (x : ℝ) : ℝ := (⌊x + 1/2⌋ : ℤ)

/-- `Math.round(x * 100) / 100` — two-decimal rounding used by the calculator. -/
noncomputable def round2 (x : ℝ) : ℝ := jsRound (x * 100) / 100

/-- `Math.round(x * 1000) / 1000` — three-decimal rounding used for the factors. -/
noncomputable def round3 (x : ℝ) : ℝ := jsRound (x * 1000) / 1000

/-- `Math.round(x * 10) / 10` — one-decimal rounding used by the route's metrics. -/
noncomputable def round1 (x : ℝ) : ℝ := jsRound (x * 10) / 10

/-- `stdev` from the shared module: sample standard deviation (divide by `n - 1`). -/
noncomputable def stdev (values : List ℝ) : ℝ :=
  let n := values.length
  if n < 2 then 0
  else
    let m := values.sum / n
    let squaredDiffs := values.map (fun v => (v - m) ^ 2)
    let variance := squaredDiffs.sum / ((n : ℝ) - 1)
    Real.sqrt variance

/-- `mean` from the shared module. -/
noncomputable def mean (values : List ℝ) : ℝ :=
  if values.length = 0 then 0 else values.sum / values.length

/-- `calculateConsistencyFactor`; the source's optional bounds are passed
explicitly (`0.5` and `1.0` are the defaults at every call site). -/
noncomputable def calculateConsistencyFactor (annualGrowthRates : List ℝ)
    (minCf maxCf : ℝ) : ℝ :=
  if annualGrowthRates.length < 2 then maxCf
  else
    let meanGrowth := mean annualGrowthRates
    if meanGrowth ≤ 0 then minCf
    else
      let stdGrowth := stdev annualGrowthRates
      let coefficientOfVariation := stdGrowth / meanGrowth
      let cf := 1 - coefficientOfVariation
      max minCf (min maxCf cf)

/-- `calculateQualityFactor`; the source's optional bounds are passed
explicitly (`0.7` and `1.0` are the defaults at every call site). -/
noncomputable def calculateQualityFactor (roic wacc minQf maxQf : ℝ) : ℝ :=
  if wacc ≤ 0 then maxQf
  else
    let roicWaccRatio := min 1.0 (roic / wacc)
    minQf + (maxQf - minQf) * roicWaccRatio

/-- `calculateGrowthIndex` from the shared module. -/
noncomputable def calculateGrowthIndex (metrics : GrowthMetrics)
    (weights : Weights) : GrowthIndexResult :=
  let cRevenue := weights.revenue * metrics.revenueCagr
  let cEps := weights.eps * metrics.epsCagr
  let cFcf := weights.fcf * metrics.fcfCagr
  let cMargin := weights.margin * metrics.marginDelta
  let baseScore := cRevenue + cEps + cFcf + cMargin
  let consistencyFactor := calculateConsistencyFactor metrics.annualRevenueGrowth 0.5 1.0
  let qualityFactor := calculateQualityFactor metrics.roic metrics.wacc 0.7 1.0
  let growthIndex := baseScore * consistencyFactor * qualityFactor
  { growthIndex := round2 growthIndex
    baseScore := round2 baseScore
    consistencyFactor := round3 consistencyFactor
    qualityFactor := round3 qualityFactor
    components := ⟨round2 cRevenue, round2 cEps, round2 cFcf, round2 cMargin⟩ }

/-- The per-company mapping step inside `compareCompanies`. -/
noncomputable def toCompanyResult (weights : Weights) (c : CompanyInput) : CompanyResult :=
  ⟨c.name, c.ticker, calculateGrowthIndex c.metrics weights, c.metrics⟩

/-- `compareCompanies`: map each company through `calculateGrowthIndex`, then
sort by `growthIndex` descending (the JavaScript comparator `b.gi - a.gi`,
modelled by a stable merge sort on `b.gi ≤ a.gi`). -/
noncomputable def compareCompanies (companies : List CompanyInput)
    (weights : Weights) : List CompanyResult :=
  let results := companies.map (toCompanyResult weights)
  results.mergeSort
    (fun a b => decide (b.result.growthIndex ≤ a.result.growthIndex))

structure Interpretation where
  label : String
  description : String
  color : String

/-- `interpretGrowthIndex` from the shared module. -/
noncomputable def interpretGrowthIndex (gi : ℝ) : Interpretation :=
  if gi ≥ 40 then
    ⟨"Exceptional Growth",
      "Hypergrowth company with outstanding metrics across all dimensions",
      "purple"⟩
  else if gi ≥ 25 then
    ⟨"Strong Growth",
      "High-growth company with solid fundamentals and value creation",
      "green"⟩
  else if gi ≥ 15 then
    ⟨"Moderate Growth",
      "Healthy growth with room for improvement in some areas",
      "yellow"⟩
  else if gi ≥ 5 then
    ⟨"Low Growth",
      "Mature company with stable but limited growth prospects",
      "orange"⟩
  else
    ⟨"Declining/Stagnant",
      "Company facing headwinds or in a declining phase",
      "red"⟩

end GrowthIndex

namespace YahooRoute

open GrowthIndex

/-- `calcCAGR` from the yahoo route (sign-aware piecewise CAGR). -/
noncomputable def calcCAGR (start e years : ℝ) : ℝ :=
  if years ≤ 0 ∨ start = 0 then 0
  else if start < 0 ∧ e > 0 then ((e - start) / |start|) * 100 / years
  else if start > 0 ∧ e < 0 then ((e - start) / start) * 100 / years
  else if start < 0 ∧ e < 0 then ((|start| - |e|) / |start|) * 100 / years
  else ((e / start) ^ ((1 : ℝ) / years) - 1) * 100

/-- `calcYoY` from the yahoo route. -/
noncomputable def calcYoY (prev curr : ℝ) : ℝ :=
  if prev = 0 then 0 else (curr - prev) / |prev| * 100

/-- `estimateWACC` from the yahoo route.  `beta || 1` is modelled as
`if beta = 0 then 1 else beta` (`0` is the falsy number). -/
noncomputable def estimateWACC (beta : ℝ) : ℝ :=
  4.5 + max 0.5 (min 2.5 (if beta = 0 then 1 else beta)) * 5.5

/-- One annual income-statement row as the route reads it; an absent field is
modelled as `0` (the route coerces absent fields with `|| 0`). -/
structure IncomeRow where
  totalRevenue : ℝ
  operatingIncome : ℝ
  netIncome : ℝ

instance : Inhabited IncomeRow := ⟨⟨0, 0, 0⟩⟩

/-- One annual cash-flow row as the route reads it. -/
structure CashRow where
  totalCashFromOperatingActivities : ℝ
  capitalExpenditures : ℝ

instance : Inhabited CashRow := ⟨⟨0, 0⟩⟩

/-- The accessor `rev` (`y.totalRevenue || 0`). -/
def rev (y : IncomeRow) : ℝ := y.totalRevenue

/-- The accessor `opInc` (`y.operatingIncome || 0`). -/
def opInc (y : IncomeRow) : ℝ := y.operatingIncome

/-- The accessor `eps`: net income when nonzero, else `0`. -/
noncomputable def eps (y : IncomeRow) : ℝ :=
  if y.netIncome ≠ 0 then y.netIncome else 0

/-- The accessor `fcf`: operating cash flow minus `|capitalExpenditures|`. -/
noncomputable def fcf (c : CashRow) : ℝ :=
  c.totalCashFromOperatingActivities - |c.capitalExpenditures|

/-- The raw metric derivation inside `fetchCompanyData` (income rows are
newest-first; `income[i]` is modelled by `getD i`). `statsBeta` models
`stats?.beta` and `finROE` models `financials?.returnOnEquity`; `none` is an
absent value and the JavaScript `|| default` also maps `0` to the default. -/
noncomputable def deriveMetrics (income : List IncomeRow) (cashFlow : List CashRow)
    (statsBeta finROE : Option ℝ) : GrowthMetrics :=
  let y0 := income.getD 0 default
  let y1 := income.getD 1 default
  let y2 := income.getD 2 default
  let y3 := income.getD 3 default
  let revenueCagr := calcCAGR (rev y3) (rev y0) 3
  let epsCagr := calcCAGR (eps y3) (eps y0) 3
  let fcfCagr := calcCAGR (fcf (cashFlow.getD 3 default)) (fcf (cashFlow.getD 0 default)) 3
  let margin0 := if rev y0 > 0 then opInc y0 / rev y0 * 100 else 0
  let margin3 := if rev y3 > 0 then opInc y3 / rev y3 * 100 else 0
  let marginDelta := margin0 - margin3
  let annualRevenueGrowth :=
    [calcYoY (rev y3) (rev y2), calcYoY (rev y2) (rev y1), calcYoY (rev y1) (rev y0)]
  let roe := match finROE with
    | none => (0.15 : ℝ)
    | some r => if r = 0 then 0.15 else r
  let beta := match statsBeta with
    | none => (1 : ℝ)
    | some b => if b = 0 then 1 else b
  { revenueCagr := revenueCagr
    epsCagr := epsCagr
    fcfCagr := fcfCagr
    marginDelta := marginDelta
    annualRevenueGrowth := annualRevenueGrowth
    roic := roe * 100
    wacc := estimateWACC beta }

/-- The `metrics` object of the route's response: each derived value rounded to
one decimal with `Math.round(x * 10) / 10`. -/
structure RoundedMetrics where
  revenueCagr : ℝ
  epsCagr : ℝ
  fcfCagr : ℝ
  marginDelta : ℝ
  roic : ℝ
  wacc : ℝ

/-- The fields of the route's per-ticker response that the engine produces. -/
structure YFResponse where
  ticker : String
  growthIndex : ℝ
  baseScore : ℝ
  consistencyFactor : ℝ
  qualityFactor : ℝ
  metrics : RoundedMetrics
  interpretation : Interpretation

/-- The response `fetchCompanyData` assembles on the happy path: the
growth-index calculation on the raw metrics, and one-decimal rounding of the
emitted metrics. -/
noncomputable def mkResponse (ticker : String) (income : List IncomeRow)
    (cashFlow : List CashRow) (statsBeta finROE : Option ℝ) : YFResponse :=
  let m := deriveMetrics income cashFlow statsBeta finROE
  let gi := calculateGrowthIndex m DEFAULT_WEIGHTS
  { ticker := ticker.toUpper
    growthIndex := gi.growthIndex
    baseScore := gi.baseScore
    consistencyFactor := gi.consistencyFactor
    qualityFactor := gi.qualityFactor
    metrics :=
      ⟨round1 m.revenueCagr, round1 m.epsCagr, round1 m.fcfCagr,
        round1 m.marginDelta, round1 m.roic, round1 m.wacc⟩
    interpretation := interpretGrowthIndex gi.growthIndex }

/-- The pure core of `fetchCompanyData`: the history-length guards followed by
the response assembly. -/
noncomputable def fetchCompanyDataCore (ticker : String) (income : List IncomeRow)
    (cashFlow : List CashRow) (statsBeta finROE : Option ℝ) :
    Except String YFResponse :=
  if income.length = 0 then
    .error ("No income data for " ++ ticker)
  else if income.length < 4 then
    .error ("Need 4yr data for " ++ ticker ++ ", got " ++ toString income.length)
  else if cashFlow.length < 4 then
    .error ("Need 4yr cash flow for " ++ ticker)
  else
    .ok (mkResponse ticker income cashFlow statsBeta finROE)

/-- One entry of the handler's `results` array: either a company payload or
the `{ ticker, error }` object pushed when `fetchCompanyData` throws. -/
inductive TickerOutcome where
  | ok (data : YFResponse)
  | err (ticker : String) (message : String)

/-- One loop iteration of the `POST` handler: call the per-ticker pipeline on
`t.trim().toUpperCase()`; on failure record `t.toUpperCase()` and the message. -/
noncomputable def runTicker (fetch : String → Except String YFResponse)
    (t : String) : TickerOutcome :=
  match fetch t.trim.toUpper with
  | .ok d => .ok d
  | .error e => .err t.toUpper e

/-- JavaScript `Array.prototype.join` with a separator. -/
def jsJoin (sep : String) : List String → String
  | [] => ""
  | [a] => a
  | a :: rest => a ++ sep ++ jsJoin sep rest

/-- The error string an outcome contributes to `results.map(r => r.error)`
(a successful entry has no `error` field; `join` renders it as `""`). -/
def outcomeError : TickerOutcome → String
  | .ok _ => ""
  | .err _ e => e

/-- The payload of a successful outcome. -/
def outcomeData : TickerOutcome → Option YFResponse
  | .ok d => some d
  | .err _ _ => none

/-- The handler's JSON reply. -/
inductive BatchResponse where
  | success (data : List YFResponse)
  | failure (error : String)
  | badRequest (error : String)

/-- The failure reasons a reply carries to the caller. -/
def carriedFailureReasons : BatchResponse → List String
  | .success _ => []
  | .failure e => [e]
  | .badRequest e => [e]

/-- The tickers of the successful company payloads a reply carries. -/
def carriedTickers : BatchResponse → List String
  | .success data => data.map YFResponse.ticker
  | .failure _ => []
  | .badRequest _ => []

/-- The pure core of the `POST` handler, with the per-ticker pipeline
(`fetchCompanyData`) abstracted as `fetch`. -/
noncomputable def POSTcore (tickers : List String)
    (fetch : String → Except String YFResponse) : BatchResponse :=
  if tickers.length = 0 then .badRequest "No tickers"
  else
    let results := (tickers.take 10).map (runTicker fetch)
    let ok := results.filterMap outcomeData
    if ok.length = 0 then
      .failure (jsJoin "; " (results.map outcomeError))
    else
      .success ok

/-- The error message of a failed pipeline outcome (`""` for a success). -/
def errMsgOf : Except String YFResponse → String
  | .error e => e
  | .ok _ => ""

end YahooRoute

namespace SpecModel

open GrowthIndex

/-- Following the spec's words: round half away from zero to one decimal,
"applied after multiplying by 10". -/
noncomputable def specRound1 (x : ℝ) : ℝ :=
  if x < 0 then -((⌊-x * 10 + 1/2⌋ : ℤ) : ℝ) / 10 else ((⌊x * 10 + 1/2⌋ : ℤ) : ℝ) / 10

/-- Following the spec's words: the derived metric values rounded to one
decimal place at the MetricsDeriver boundary. -/
noncomputable def specRoundMetrics (m : GrowthMetrics) : GrowthMetrics :=
  { m with
    revenueCagr := specRound1 m.revenueCagr
    epsCagr := specRound1 m.epsCagr
    fcfCagr := specRound1 m.fcfCagr
    marginDelta := specRound1 m.marginDelta
    roic := specRound1 m.roic
    wacc := specRound1 m.wacc }

end SpecModel

namespace Inputs

open GrowthIndex YahooRoute

/-- The end-to-end scenario metrics from the spec (the META example data). -/
noncomputable def metaMetrics : GrowthMetrics :=
  ⟨18.8, 66.7, 67.5, 8.3, [15.7, 21.9, 21.3], 34.0, 12.7⟩

/-- Four newest-first income rows: flat revenue `1000`, flat net income `5`,
operating income `10` in the newest year and `9.6` in the oldest, so the raw
margin delta is `0.04`. -/
noncomputable def incomeA : List IncomeRow :=
  [⟨1000, 10, 5⟩, ⟨1000, 7, 5⟩, ⟨1000, 7, 5⟩, ⟨1000, 9.6, 5⟩]

/-- Like `incomeA` but with oldest operating income `12.5`, so the raw margin
delta is `-0.25`. -/
noncomputable def incomeB : List IncomeRow :=
  [⟨1000, 10, 5⟩, ⟨1000, 7, 5⟩, ⟨1000, 7, 5⟩, ⟨1000, 12.5, 5⟩]

/-- Four flat cash-flow rows: operating cash flow `10`, no capex. -/
noncomputable def cashA : List CashRow :=
  [⟨10, 0⟩, ⟨10, 0⟩, ⟨10, 0⟩, ⟨10, 0⟩]

/-- A per-ticker pipeline that succeeds for `"AAA"` (with the `incomeA` data)
and fails for any other ticker (no income data). -/
noncomputable def mixedFetch (s : String) : Except String YFResponse :=
  fetchCompanyDataCore s (if s = "AAA" then incomeA else [])
    (if s = "AAA" then cashA else []) none (some 0.34)

/-- A per-ticker pipeline that always fails. -/
noncomputable def failFetch (s : String) : Except String YFResponse :=
  .error ("No income data for " ++ s)

end Inputs

section Claims

open GrowthIndex YahooRoute SpecModel Inputs

/-- **C3** (counterexample): `calculateQualityFactor` with default bounds is
not always in `[0.7, 1.0]`: at `roic = -10`, `wacc = 10` it returns `0.4`. -/
theorem C3_counterexample :
    calculateQualityFactor (-10) 10 0.7 1.0 = 0.4 ∧ ¬ (0.7 ≤ (0.4 : ℝ)) := by
  constructor
  · rw [calculateQualityFactor, if_neg (by norm_num)]
    rw [show min (1.0 : ℝ) ((-10) / 10) = -1 by norm_num [min_def]]
    norm_num
  · norm_num

/-- **C3** (amended): `calculateQualityFactor(roic, wacc)` with default bounds
returns `1.0` when `wacc ≤ 0` and `0.7 + 0.3 * min(1.0, roic/wacc)` otherwise;
the value lies in `[0.7, 1.0]` whenever `roic ≥ 0` (but not for negative
`roic`); `calculateQualityFactor(0, 10) = 0.7` and
`calculateQualityFactor(r, 0) = 1.0`. -/
theorem C3_quality_factor (roic wacc : ℝ) :
    (wacc ≤ 0 → calculateQualityFactor roic wacc 0.7 1.0 = 1.0) ∧
    (0 < wacc →
      calculateQualityFactor roic wacc 0.7 1.0 = 0.7 + 0.3 * min 1.0 (roic / wacc)) ∧
    (0 ≤ roic →
      0.7 ≤ calculateQualityFactor roic wacc 0.7 1.0 ∧
      calculateQualityFactor roic wacc 0.7 1.0 ≤ 1.0) ∧
    calculateQualityFactor 0 10 0.7 1.0 = 0.7 ∧
    calculateQualityFactor roic 0 0.7 1.0 = 1.0 := by
  refine ⟨?_, ?_, ?_, ?_, ?_⟩
  · intro h
    rw [calculateQualityFactor, if_pos h]
  · intro h
    rw [calculateQualityFactor, if_neg (not_le.mpr h)]
    norm_num
  · intro hr
    by_cases hw : wacc ≤ 0
    · rw [calculateQualityFactor, if_pos hw]
      norm_num
    · rw [calculateQualityFactor, if_neg hw]
      push_neg at hw
      have h1 : min 1.0 (roic / wacc) ≤ 1.0 := min_le_left _ _
      have h2 : 0 ≤ min 1.0 (roic / wacc) :=
        le_min (by norm_num) (div_nonneg hr hw.le)
      constructor <;> nlinarith
  · rw [calculateQualityFactor, if_neg (by norm_num)]
    norm_num
  · rw [calculateQualityFactor, if_pos le_rfl]

/-- **C3** (witness): the amended theorem applied at `roic = 5`, `wacc = 10`. -/
theorem C3_quality_factor_witness :
    calculateQualityFactor 5 10 0.7 1.0 = 0.7 + 0.3 * min 1.0 ((5 : ℝ) / 10) ∧
    (0.7 ≤ calculateQualityFactor 5 10 0.7 1.0 ∧
      calculateQualityFactor 5 10 0.7 1.0 ≤ 1.0) :=
  ⟨(C3_quality_factor 5 10).2.1 (by norm_num),
    (C3_quality_factor 5 10).2.2.1 (by norm_num)⟩

/-- **C6**: `calculateConsistencyFactor` with default bounds always lands in
`[0.5, 1.0]`; it is `1.0` on series shorter than two, `0.5` when the mean is
non-positive, and otherwise `1 - sampleStdev/mean` clamped to `[0.5, 1.0]`
(the standard deviation divides by `n - 1`); in particular the value on
`[10, 10, 10]` is `1.0` and on `[-5, -5, -5]` is `0.5`. -/
theorem C6_consistency_factor (g : List ℝ) :
    (0.5 ≤ calculateConsistencyFactor g 0.5 1.0 ∧
      calculateConsistencyFactor g 0.5 1.0 ≤ 1.0) ∧
    (g.length < 2 → calculateConsistencyFactor g 0.5 1.0 = 1.0) ∧
    (2 ≤ g.length → mean g ≤ 0 → calculateConsistencyFactor g 0.5 1.0 = 0.5) ∧
    (2 ≤ g.length → 0 < mean g →
      calculateConsistencyFactor g 0.5 1.0
        = max 0.5 (min 1.0 (1 - stdev g / mean g))) ∧
    calculateConsistencyFactor [10, 10, 10] 0.5 1.0 = 1.0 ∧
    calculateConsistencyFactor [-5, -5, -5] 0.5 1.0 = 0.5 := by
  refine ⟨?_, ?_, ?_, ?_, ?_, ?_⟩
  · rw [calculateConsistencyFactor]
    by_cases h1 : g.length < 2
    · rw [if_pos h1]
      norm_num
    · rw [if_neg h1]
      by_cases h2 : mean g ≤ 0
      · rw [if_pos h2]
        norm_num
      · rw [if_neg h2]
        exact ⟨le_max_left _ _, max_le (by norm_num) (min_le_left _ _)⟩
  · intro h
    rw [calculateConsistencyFactor, if_pos h]
  · intro h1 h2
    rw [calculateConsistencyFactor, if_neg (by omega), if_pos h2]
  · intro h1 h2
    rw [calculateConsistencyFactor, if_neg (by omega), if_neg (not_le.mpr h2)]
  · have hs : stdev [(10 : ℝ), 10, 10] = 0 := by
      rw [stdev]
      norm_num [Real.sqrt_eq_zero']
    rw [calculateConsistencyFactor, if_neg (by norm_num)]
    rw [show mean [(10 : ℝ), 10, 10] = 10 by rw [mean]; norm_num]
    rw [if_neg (by norm_num), hs]
    norm_num
  · rw [calculateConsistencyFactor, if_neg (by norm_num)]
    rw [show mean [(-5 : ℝ), -5, -5] = -5 by rw [mean]; norm_num]
    rw [if_pos (by norm_num)]

/-- **C6** (witness): the theorem applied at a concrete series with two or
more elements and positive mean. -/
theorem C6_consistency_factor_witness :
    calculateConsistencyFactor [15.7, 21.9, 21.3] 0.5 1.0
      = max 0.5 (min 1.0 (1 - stdev [15.7, 21.9, 21.3] / mean [15.7, 21.9, 21.3])) ∧
    calculateConsistencyFactor [(3 : ℝ)] 0.5 1.0 = 1.0 ∧
    calculateConsistencyFactor [(-1 : ℝ), 1] 0.5 1.0 = 0.5 := by
  refine ⟨(C6_consistency_factor _).2.2.2.1 (by norm_num) ?_,
    (C6_consistency_factor _).2.1 (by norm_num),
    (C6_consistency_factor _).2.2.1 (by norm_num) ?_⟩
  · rw [mean]; norm_num
  · rw [mean]; norm_num

/-- **C7**: `interpretGrowthIndex` labels the real line by five bands, each
inclusive on its lower bound: `[40, ∞)` is "Exceptional Growth", `[25, 40)`
"Strong Growth", `[15, 25)` "Moderate Growth", `[5, 15)` "Low Growth" and
`(-∞, 5)` "Declining/Stagnant"; in particular at `40`, `39.99` and `-1`. -/
theorem C7_interpret (gi : ℝ) :
    (40 ≤ gi → (interpretGrowthIndex gi).label = "Exceptional Growth") ∧
    (25 ≤ gi → gi < 40 → (interpretGrowthIndex gi).label = "Strong Growth") ∧
    (15 ≤ gi → gi < 25 → (interpretGrowthIndex gi).label = "Moderate Growth") ∧
    (5 ≤ gi → gi < 15 → (interpretGrowthIndex gi).label = "Low Growth") ∧
    (gi < 5 → (interpretGrowthIndex gi).label = "Declining/Stagnant") ∧
    (interpretGrowthIndex 40).label = "Exceptional Growth" ∧
    (interpretGrowthIndex 39.99).label = "Strong Growth" ∧
    (interpretGrowthIndex (-1)).label = "Declining/Stagnant" := by
  have key : ∀ x : ℝ,
      (40 ≤ x → (interpretGrowthIndex x).label = "Exceptional Growth") ∧
      (25 ≤ x → x < 40 → (interpretGrowthIndex x).label = "Strong Growth") ∧
      (15 ≤ x → x < 25 → (interpretGrowthIndex x).label = "Moderate Growth") ∧
      (5 ≤ x → x < 15 → (interpretGrowthIndex x).label = "Low Growth") ∧
      (x < 5 → (interpretGrowthIndex x).label = "Declining/Stagnant") := by
    intro x
    rw [interpretGrowthIndex]
    split_ifs with h1 h2 h3 h4 <;>
      refine ⟨?_, ?_, ?_, ?_, ?_⟩ <;> intros <;> first | rfl | linarith
  obtain ⟨k1, k2, k3, k4, k5⟩ := key gi
  refine ⟨k1, k2, k3, k4, k5, (key 40).1 le_rfl,
    (key 39.99).2.1 (by norm_num) (by norm_num),
    (key (-1)).2.2.2.2 (by norm_num)⟩

/-- **C7** (witness): the band implications applied at concrete scores. -/
theorem C7_interpret_witness :
    (interpretGrowthIndex 100).label = "Exceptional Growth" ∧
    (interpretGrowthIndex 30).label = "Strong Growth" ∧
    (interpretGrowthIndex 20).label = "Moderate Growth" ∧
    (interpretGrowthIndex 10).label = "Low Growth" ∧
    (interpretGrowthIndex 0).label = "Declining/Stagnant" :=
  ⟨(C7_interpret 100).1 (by norm_num),
    (C7_interpret 30).2.1 (by norm_num) (by norm_num),
    (C7_interpret 20).2.2.1 (by norm_num) (by norm_num),
    (C7_interpret 10).2.2.2.1 (by norm_num) (by norm_num),
    (C7_interpret 0).2.2.2.2.1 (by norm_num)⟩

/-- **C9**: `estimateWACC(beta)` equals
`4.5 + clamp(beta, 0.5, 2.5) * 5.5` for every valid (nonzero) beta; a falsy
beta falls back to `1`; the pipeline uses `1` when `stats.beta` is absent; and
the estimate always lies in `[7.25, 18.25]`. -/
theorem C9_wacc (b : ℝ) :
    (b ≠ 0 → estimateWACC b = 4.5 + max 0.5 (min 2.5 b) * 5.5) ∧
    estimateWACC 0 = 4.5 + max 0.5 (min 2.5 1) * 5.5 ∧
    (∀ income cashFlow roe,
      (deriveMetrics income cashFlow none roe).wacc = estimateWACC 1) ∧
    (7.25 ≤ estimateWACC b ∧ estimateWACC b ≤ 18.25) := by
  refine ⟨?_, ?_, ?_, ?_⟩
  · intro h
    rw [estimateWACC, if_neg h]
  · rw [estimateWACC, if_pos rfl]
  · intro income cashFlow roe
    rfl
  · rw [estimateWACC]
    set x : ℝ := if b = 0 then 1 else b with hx
    have h1 : 0.5 ≤ max 0.5 (min 2.5 x) := le_max_left _ _
    have h2 : max 0.5 (min 2.5 x) ≤ 2.5 :=
      max_le (by norm_num) (min_le_left _ _)
    constructor <;> nlinarith

/-- **C9** (witness): the formula at the concrete beta `2`, and the range at
explicit inputs. -/
theorem C9_wacc_witness :
    estimateWACC 2 = 4.5 + max 0.5 (min 2.5 2) * 5.5 ∧
    (7.25 ≤ estimateWACC 2 ∧ estimateWACC 2 ≤ 18.25) :=
  ⟨(C9_wacc 2).1 (by norm_num), (C9_wacc 2).2.2.2⟩

/-- **C1**: `calcCAGR` computes the sign-aware piecewise value stated in the
spec (zero guard, negative-to-positive, positive-to-negative,
negative-to-negative, and the compound form otherwise), and the derivation
pipeline calls it with the oldest year (index 3 of the newest-first rows) as
`start` and the newest year (index 0) as `end`. -/
theorem C1_calcCAGR :
    (∀ start e years : ℝ,
      ((years ≤ 0 ∨ start = 0) → calcCAGR start e years = 0) ∧
      (0 < years → start < 0 → 0 < e →
        calcCAGR start e years = ((e - start) / |start|) * 100 / years) ∧
      (0 < years → 0 < start → e < 0 →
        calcCAGR start e years = ((e - start) / start) * 100 / years) ∧
      (0 < years → start < 0 → e < 0 →
        calcCAGR start e years = ((|start| - |e|) / |start|) * 100 / years) ∧
      (0 < years → start ≠ 0 → ¬(start < 0 ∧ 0 < e) → ¬(0 < start ∧ e < 0) →
        ¬(start < 0 ∧ e < 0) →
        calcCAGR start e years = ((e / start) ^ ((1 : ℝ) / years) - 1) * 100)) ∧
    (∀ income cashFlow statsBeta finROE,
      (deriveMetrics income cashFlow statsBeta finROE).revenueCagr
        = calcCAGR (rev (income.getD 3 default)) (rev (income.getD 0 default)) 3 ∧
      (deriveMetrics income cashFlow statsBeta finROE).epsCagr
        = calcCAGR (eps (income.getD 3 default)) (eps (income.getD 0 default)) 3 ∧
      (deriveMetrics income cashFlow statsBeta finROE).fcfCagr
        = calcCAGR (fcf (cashFlow.getD 3 default)) (fcf (cashFlow.getD 0 default)) 3) := by
  constructor
  · intro s e y
    refine ⟨?_, ?_, ?_, ?_, ?_⟩
    · intro h
      rw [calcCAGR, if_pos h]
    · intro hy hs he
      rw [calcCAGR, if_neg (by push_neg; exact ⟨hy, hs.ne⟩), if_pos ⟨hs, he⟩]
    · intro hy hs he
      rw [calcCAGR, if_neg (by push_neg; exact ⟨hy, hs.ne'⟩),
        if_neg (fun h => absurd hs (not_lt.mpr h.1.le)), if_pos ⟨hs, he⟩]
    · intro hy hs he
      rw [calcCAGR, if_neg (by push_neg; exact ⟨hy, hs.ne⟩),
        if_neg (fun h => absurd he (not_lt.mpr h.2.le)),
        if_neg (fun h => absurd hs (not_lt.mpr h.1.le)), if_pos ⟨hs, he⟩]
    · intro hy hs h1 h2 h3
      rw [calcCAGR, if_neg (by push_neg; exact ⟨hy, hs⟩), if_neg h1, if_neg h2,
        if_neg h3]
  · intro income cashFlow statsBeta finROE
    exact ⟨rfl, rfl, rfl⟩

/-- **C1** (witness): the branch equations at concrete inputs
(`(-100, 50, 3)` for the sign-change branch, `(100, 200, 3)` for the compound
branch) and the pipeline conjunct at concrete rows. -/
theorem C1_calcCAGR_witness :
    calcCAGR (-100) 50 3 = ((50 - (-100)) / |(-100 : ℝ)|) * 100 / 3 ∧
    calcCAGR 100 200 3 = (((200 : ℝ) / 100) ^ ((1 : ℝ) / 3) - 1) * 100 ∧
    (deriveMetrics incomeA cashA none (some 0.34)).revenueCagr
      = calcCAGR (rev (incomeA.getD 3 default)) (rev (incomeA.getD 0 default)) 3 :=
  ⟨(C1_calcCAGR.1 (-100) 50 3).2.1 (by norm_num) (by norm_num) (by norm_num),
    (C1_calcCAGR.1 100 200 3).2.2.2.2 (by norm_num) (by norm_num) (by norm_num)
      (by norm_num) (by norm_num),
    (C1_calcCAGR.2 incomeA cashA none (some 0.34)).1⟩

/-- **C10**: `compareCompanies` returns exactly the input companies mapped
through `calculateGrowthIndex` with the given weights (a permutation of that
mapped list, so one result per company with name, ticker and metrics
unchanged), sorted by `growthIndex` descending. -/
theorem C10_compareCompanies (companies : List CompanyInput) (weights : Weights) :
    (compareCompanies companies weights).Perm
      (companies.map (toCompanyResult weights)) ∧
    (compareCompanies companies weights).Sorted
      (fun a b => b.result.growthIndex ≤ a.result.growthIndex) := by
  constructor
  · exact List.mergeSort_perm _ _
  · have h := @List.sorted_mergeSort CompanyResult
      (fun a b => decide (b.result.growthIndex ≤ a.result.growthIndex))
      (fun a b c hab hbc => by
        simp only [decide_eq_true_eq] at *
        exact le_trans hbc hab)
      (fun a b => by
        simp only [Bool.or_eq_true, decide_eq_true_eq]
        exact le_total _ _)
      (companies.map (toCompanyResult weights))
    rw [compareCompanies]
    refine h.imp ?_
    intro a b hab
    simpa using hab

end Claims

namespace MetaScenario

open GrowthIndex Inputs

lemma sqrtB_low : 10.2586 < Real.sqrt 105.24 :=
  (Real.lt_sqrt (by norm_num)).mpr (by norm_num)

lemma sqrtB_high : Real.sqrt 105.24 < 10.2587 :=
  (Real.sqrt_lt' (by norm_num)).mpr (by norm_num)

lemma sqrtB_div_low : (10.2586 : ℝ) / 58.9 < Real.sqrt 105.24 / 58.9 :=
  (div_lt_div_iff_of_pos_right (by norm_num)).mpr sqrtB_low

lemma sqrtB_div_high : Real.sqrt 105.24 / 58.9 < (10.2587 : ℝ) / 58.9 :=
  (div_lt_div_iff_of_pos_right (by norm_num)).mpr sqrtB_high

lemma stdev_three (a b c : ℝ) :
    stdev [a, b, c]
      = Real.sqrt (((a - (a + b + c) / 3) ^ 2 + (b - (a + b + c) / 3) ^ 2
          + (c - (a + b + c) / 3) ^ 2) / 2) := by
  rw [stdev]
  simp only [List.length_cons, List.length_nil, List.sum_cons, List.sum_nil,
    List.map_cons, List.map_nil]
  norm_num
  congr 1
  ring_nf

lemma meta_stdev : stdev [15.7, 21.9, 21.3] = Real.sqrt 105.24 / 3 := by
  rw [stdev_three,
    show ((15.7 - (15.7 + 21.9 + 21.3) / 3) ^ 2 + (21.9 - (15.7 + 21.9 + 21.3) / 3) ^ 2
      + (21.3 - (15.7 + 21.9 + 21.3) / 3) ^ 2) / 2 = (105.24 : ℝ) / 9 by norm_num]
  rw [show (105.24 / 9 : ℝ) = (Real.sqrt 105.24 / 3) ^ 2 by
    rw [div_pow, Real.sq_sqrt (by norm_num : (0:ℝ) ≤ 105.24)]; norm_num]
  exact Real.sqrt_sq (div_nonneg (Real.sqrt_nonneg _) (by norm_num))

lemma meta_mean : mean [15.7, 21.9, 21.3] = 58.9 / 3 := by
  rw [mean]
  norm_num

lemma meta_cf_raw :
    calculateConsistencyFactor [15.7, 21.9, 21.3] 0.5 1.0
      = 1 - Real.sqrt 105.24 / 58.9 := by
  rw [calculateConsistencyFactor, if_neg (by norm_num), meta_mean,
    if_neg (by norm_num), meta_stdev]
  dsimp only
  rw [show Real.sqrt 105.24 / 3 / (58.9 / 3) = Real.sqrt 105.24 / 58.9 by ring]
  rw [min_eq_right (by nlinarith [sqrtB_div_low]),
    max_eq_right (by nlinarith [sqrtB_div_high])]

lemma meta_qf_raw : calculateQualityFactor 34.0 12.7 0.7 1.0 = 1 := by
  rw [calculateQualityFactor, if_neg (by norm_num),
    min_eq_left (by norm_num)]
  norm_num

lemma meta_baseScore :
    (calculateGrowthIndex metaMetrics DEFAULT_WEIGHTS).baseScore = 41.34 := by
  simp only [calculateGrowthIndex, metaMetrics, DEFAULT_WEIGHTS]
  rw [round2, jsRound]
  norm_num

lemma meta_cf_rounded :
    (calculateGrowthIndex metaMetrics DEFAULT_WEIGHTS).consistencyFactor = 0.826 := by
  simp only [calculateGrowthIndex, metaMetrics, DEFAULT_WEIGHTS]
  rw [meta_cf_raw, round3, jsRound]
  have h : ⌊(1 - Real.sqrt 105.24 / 58.9) * 1000 + 1 / 2⌋ = (826 : ℤ) := by
    rw [Int.floor_eq_iff]
    push_cast
    constructor
    · nlinarith [sqrtB_div_high]
    · nlinarith [sqrtB_div_low]
  rw [h]
  norm_num

lemma meta_qf_rounded :
    (calculateGrowthIndex metaMetrics DEFAULT_WEIGHTS).qualityFactor = 1.0 := by
  simp only [calculateGrowthIndex, metaMetrics, DEFAULT_WEIGHTS]
  rw [meta_qf_raw, round3, jsRound]
  norm_num

lemma meta_growthIndex :
    (calculateGrowthIndex metaMetrics DEFAULT_WEIGHTS).growthIndex = 34.14 := by
  simp only [calculateGrowthIndex, metaMetrics, DEFAULT_WEIGHTS]
  rw [meta_cf_raw, meta_qf_raw, round2, jsRound]
  have h : ⌊(0.35 * 18.8 + 0.30 * 66.7 + 0.20 * 67.5 + 0.15 * 8.3)
      * (1 - Real.sqrt 105.24 / 58.9) * 1 * 100 + 1 / 2⌋ = (3414 : ℤ) := by
    rw [Int.floor_eq_iff]
    push_cast
    constructor
    · nlinarith [sqrtB_div_high]
    · nlinarith [sqrtB_div_low]
  rw [h]
  norm_num

end MetaScenario

section ClaimsTwo

open GrowthIndex YahooRoute SpecModel Inputs MetaScenario

/-- **C5** (counterexample): on the spec's end-to-end scenario metrics with the
default weights, `baseScore` is `41.34` and `growthIndex` is `34.14`, not
within `0.1` of the spec's `38.62` and `32.56`. -/
theorem C5_counterexample :
    ¬ (|(calculateGrowthIndex metaMetrics DEFAULT_WEIGHTS).baseScore - 38.62| ≤ 0.1 ∧
      |(calculateGrowthIndex metaMetrics DEFAULT_WEIGHTS).growthIndex - 32.56| ≤ 0.1) := by
  intro h
  obtain ⟨h1, h2⟩ := h
  rw [meta_baseScore] at h1
  rw [abs_le] at h1
  obtain ⟨h1a, h1b⟩ := h1
  norm_num at h1b

/-- **C5** (amended): `calculateGrowthIndex` on the scenario metrics
(`revenueCagr = 18.8`, `epsCagr = 66.7`, `fcfCagr = 67.5`,
`marginDelta = 8.3`, `annualRevenueGrowth = [15.7, 21.9, 21.3]`,
`roic = 34.0`, `wacc = 12.7`) with the default weights yields
`baseScore = 41.34`, `consistencyFactor = 0.826`, `qualityFactor = 1.0` and
`growthIndex = 34.14` (so within any `±0.1` tolerance of those values, while
the spec's `38.62` / `32.56` are off by `2.72` / `1.58`). -/
theorem C5_end_to_end :
    (calculateGrowthIndex metaMetrics DEFAULT_WEIGHTS).baseScore = 41.34 ∧
    (calculateGrowthIndex metaMetrics DEFAULT_WEIGHTS).consistencyFactor = 0.826 ∧
    (calculateGrowthIndex metaMetrics DEFAULT_WEIGHTS).qualityFactor = 1.0 ∧
    (calculateGrowthIndex metaMetrics DEFAULT_WEIGHTS).growthIndex = 34.14 :=
  ⟨meta_baseScore, meta_cf_rounded, meta_qf_rounded, meta_growthIndex⟩

end ClaimsTwo

namespace ConcreteRuns

open GrowthIndex YahooRoute SpecModel Inputs

lemma calcCAGR_self (a : ℝ) (ha : 0 < a) : calcCAGR a a 3 = 0 := by
  rw [calcCAGR, if_neg (by push_neg; exact ⟨by norm_num, ha.ne'⟩),
    if_neg (fun h => absurd ha (not_lt.mpr h.1.le)),
    if_neg (fun h => absurd h.2 (not_lt.mpr ha.le)),
    if_neg (fun h => absurd ha (not_lt.mpr h.1.le))]
  rw [div_self ha.ne', Real.one_rpow]
  norm_num

lemma estimateWACC_one : estimateWACC 1 = 10 := by
  rw [estimateWACC, if_neg (by norm_num), min_eq_right (by norm_num),
    max_eq_right (by norm_num)]
  norm_num

lemma deriveA : deriveMetrics incomeA cashA none (some 0.34)
    = ⟨0, 0, 0, 0.04, [0, 0, 0], 34, 10⟩ := by
  rw [deriveMetrics]
  simp only [incomeA, cashA, List.getD_cons_zero, List.getD_cons_succ,
    rev, opInc, eps, fcf, calcYoY]
  norm_num [GrowthMetrics.mk.injEq, calcCAGR_self, estimateWACC_one]

lemma deriveB : deriveMetrics incomeB cashA none (some 0.34)
    = ⟨0, 0, 0, -0.25, [0, 0, 0], 34, 10⟩ := by
  rw [deriveMetrics]
  simp only [incomeB, cashA, List.getD_cons_zero, List.getD_cons_succ,
    rev, opInc, eps, fcf, calcYoY]
  norm_num [GrowthMetrics.mk.injEq, calcCAGR_self, estimateWACC_one]

lemma fetchCore_ok (t : String) (income : List IncomeRow) (cash : List CashRow)
    (sb roe : Option ℝ) (h1 : income.length = 4) (h2 : cash.length = 4) :
    fetchCompanyDataCore t income cash sb roe = .ok (mkResponse t income cash sb roe) := by
  rw [fetchCompanyDataCore, if_neg (by omega), if_neg (by omega), if_neg (by omega)]

end ConcreteRuns

section ClaimsThree

open GrowthIndex YahooRoute SpecModel Inputs ConcreteRuns

/-- **C2** (counterexample): the route computes `baseScore` from the raw
derived metrics, not from one-decimal-rounded metrics (`0.01` versus the `0`
the claim's two-stage pipeline predicts on a raw margin delta of `0.04`); and
the one-decimal rounding it applies is `Math.round` (half toward `+∞`), not
half-away-from-zero (`-0.2` versus `-0.3` on a raw margin delta of `-0.25`). -/
theorem C2_counterexample :
    (fetchCompanyDataCore "X" incomeA cashA none (some 0.34)).map
      (fun r => r.baseScore) = .ok 0.01 ∧
    (calculateGrowthIndex
        (specRoundMetrics (deriveMetrics incomeA cashA none (some 0.34)))
        DEFAULT_WEIGHTS).baseScore = 0 ∧
    (0.01 : ℝ) ≠ 0 ∧
    (fetchCompanyDataCore "X" incomeB cashA none (some 0.34)).map
      (fun r => r.metrics.marginDelta) = .ok (-0.2) ∧
    specRound1 ((deriveMetrics incomeB cashA none (some 0.34)).marginDelta) = -0.3 ∧
    (-0.2 : ℝ) ≠ -0.3 := by
  refine ⟨?_, ?_, by norm_num, ?_, ?_, by norm_num⟩
  · rw [fetchCore_ok "X" incomeA cashA none (some 0.34) (by simp [incomeA]) (by simp [cashA])]
    simp only [Except.map, mkResponse, deriveA]
    simp only [calculateGrowthIndex, DEFAULT_WEIGHTS]
    rw [round2, jsRound]
    norm_num
  · rw [deriveA]
    simp only [specRoundMetrics, specRound1, calculateGrowthIndex, DEFAULT_WEIGHTS]
    rw [round2, jsRound]
    norm_num
  · rw [fetchCore_ok "X" incomeB cashA none (some 0.34) (by simp [incomeB]) (by simp [cashA])]
    simp only [Except.map, mkResponse, deriveB]
    rw [round1, jsRound]
    norm_num
  · rw [deriveB]
    rw [specRound1, if_pos (by norm_num)]
    norm_num

/-- **C2** (amended): the route rounds the six derived metric values to one
decimal place with `Math.round(x * 10) / 10` (half toward `+∞`) only when
emitting the response's `metrics` object, while `baseScore` and `growthIndex`
are computed by `calculateGrowthIndex` from the raw unrounded metrics (which
applies its own two-decimal output rounding) — single-stage, not two-stage. -/
theorem C2_rounding (ticker : String) (income : List IncomeRow)
    (cashFlow : List CashRow) (sb roe : Option ℝ) (r : YFResponse)
    (h : fetchCompanyDataCore ticker income cashFlow sb roe = .ok r) :
    r.baseScore
      = (calculateGrowthIndex (deriveMetrics income cashFlow sb roe)
          DEFAULT_WEIGHTS).baseScore ∧
    r.growthIndex
      = (calculateGrowthIndex (deriveMetrics income cashFlow sb roe)
          DEFAULT_WEIGHTS).growthIndex ∧
    r.metrics.revenueCagr = round1 (deriveMetrics income cashFlow sb roe).revenueCagr ∧
    r.metrics.epsCagr = round1 (deriveMetrics income cashFlow sb roe).epsCagr ∧
    r.metrics.fcfCagr = round1 (deriveMetrics income cashFlow sb roe).fcfCagr ∧
    r.metrics.marginDelta = round1 (deriveMetrics income cashFlow sb roe).marginDelta ∧
    r.metrics.roic = round1 (deriveMetrics income cashFlow sb roe).roic ∧
    r.metrics.wacc = round1 (deriveMetrics income cashFlow sb roe).wacc := by
  rw [fetchCompanyDataCore] at h
  split_ifs at h
  injection h with h'
  subst h'
  exact ⟨rfl, rfl, rfl, rfl, rfl, rfl, rfl, rfl⟩

/-- **C2** (witness): the amended theorem applied to the concrete run on
`incomeA`/`cashA`. -/
theorem C2_rounding_witness :
    (mkResponse "META" incomeA cashA none (some 0.34)).baseScore
      = (calculateGrowthIndex (deriveMetrics incomeA cashA none (some 0.34))
          DEFAULT_WEIGHTS).baseScore ∧
    (mkResponse "META" incomeA cashA none (some 0.34)).metrics.marginDelta
      = round1 (deriveMetrics incomeA cashA none (some 0.34)).marginDelta :=
  ⟨(C2_rounding "META" incomeA cashA none (some 0.34) _
      (fetchCore_ok "META" incomeA cashA none (some 0.34)
        (by simp [incomeA]) (by simp [cashA]))).1,
    (C2_rounding "META" incomeA cashA none (some 0.34) _
      (fetchCore_ok "META" incomeA cashA none (some 0.34)
        (by simp [incomeA]) (by simp [cashA]))).2.2.2.2.2.1⟩

end ClaimsThree

namespace BatchLemmas

open GrowthIndex YahooRoute Inputs

lemma mem_jsJoin_isInfix (sep : String) : ∀ (l : List String) (r : String), r ∈ l →
    r.data <:+: (jsJoin sep l).data := by
  intro l
  induction l with
  | nil => intro r hr; simp at hr
  | cons a t ih =>
    intro r hr
    cases t with
    | nil =>
      rw [List.mem_singleton] at hr
      subst hr
      exact ⟨[], [], by simp [jsJoin]⟩
    | cons b t2 =>
      rcases List.mem_cons.mp hr with h1 | h2
      · subst h1
        refine ⟨[], sep.data ++ (jsJoin sep (b :: t2)).data, ?_⟩
        show r.data ++ (sep.data ++ (jsJoin sep (b :: t2)).data) = _
        simp [jsJoin]
      · obtain ⟨s, t3, hst⟩ := ih r h2
        refine ⟨(a ++ sep).data ++ s, t3, ?_⟩
        rw [show (jsJoin sep (a :: b :: t2)) = (a ++ sep) ++ jsJoin sep (b :: t2)
          from rfl]
        rw [show ((a ++ sep) ++ jsJoin sep (b :: t2)).data
          = (a ++ sep).data ++ (jsJoin sep (b :: t2)).data from rfl]
        rw [← hst]
        simp

lemma outcomeError_runTicker (fetch : String → Except String YFResponse)
    (t : String) : outcomeError (runTicker fetch t) = errMsgOf (fetch t.trim.toUpper) := by
  cases h : fetch t.trim.toUpper <;> simp [runTicker, outcomeError, errMsgOf, h]

lemma outcomeData_runTicker (fetch : String → Except String YFResponse)
    (t : String) : outcomeData (runTicker fetch t) = (fetch t.trim.toUpper).toOption := by
  cases h : fetch t.trim.toUpper <;> simp [runTicker, outcomeData, Except.toOption, h]

end BatchLemmas

section ClaimsFour

open GrowthIndex YahooRoute Inputs BatchLemmas ConcreteRuns

/-- **C8**: when the batch is nonempty and every processed ticker's pipeline
fails, the handler replies with success flag false and a single error string
that joins all per-ticker failure reasons with `"; "`, so each individual
reason occurs inside it. -/
theorem C8_total_failure (tickers : List String)
    (fetch : String → Except String YFResponse) (hne : tickers ≠ [])
    (hfail : ∀ t ∈ tickers.take 10, ∃ e, fetch t.trim.toUpper = .error e) :
    POSTcore tickers fetch
      = .failure (jsJoin "; "
          ((tickers.take 10).map (fun t => errMsgOf (fetch t.trim.toUpper)))) ∧
    ∀ m ∈ (tickers.take 10).map (fun t => errMsgOf (fetch t.trim.toUpper)),
      m.data <:+: (jsJoin "; "
        ((tickers.take 10).map (fun t => errMsgOf (fetch t.trim.toUpper)))).data := by
  constructor
  · have hok : ((tickers.take 10).map (runTicker fetch)).filterMap outcomeData = [] := by
      rw [List.filterMap_eq_nil_iff]
      intro o ho
      obtain ⟨t, ht, rfl⟩ := List.mem_map.mp ho
      obtain ⟨e, he⟩ := hfail t ht
      rw [outcomeData_runTicker, he]
      rfl
    have hmap : ((tickers.take 10).map (runTicker fetch)).map outcomeError
        = (tickers.take 10).map (fun t => errMsgOf (fetch t.trim.toUpper)) := by
      rw [List.map_map]
      exact List.map_congr_left (fun t _ => outcomeError_runTicker fetch t)
    simp only [POSTcore]
    rw [if_neg (fun h0 => hne (List.length_eq_zero.mp h0)), hok, hmap]
    rfl
  · exact fun m hm => mem_jsJoin_isInfix "; " _ m hm

/-- **C8** (witness): the theorem applied to a concrete two-ticker batch in
which every pipeline fails. -/
theorem C8_total_failure_witness :
    POSTcore ["AAA", "BBB"] failFetch
      = .failure (jsJoin "; "
          ((["AAA", "BBB"].take 10).map (fun t => errMsgOf (failFetch t.trim.toUpper)))) ∧
    ("No income data for " ++ "AAA".trim.toUpper).data
      <:+: (jsJoin "; "
        ((["AAA", "BBB"].take 10).map (fun t => errMsgOf (failFetch t.trim.toUpper)))).data := by
  have h := C8_total_failure ["AAA", "BBB"] failFetch (by simp)
    (fun t _ => ⟨"No income data for " ++ t.trim.toUpper, rfl⟩)
  exact ⟨h.1, h.2 _ (by simp [failFetch, errMsgOf])⟩

unseal String.mapAux Substring.takeWhileAux Substring.takeRightWhileAux in
/-- **C4** (counterexample): a two-ticker batch in which `"AAA"` succeeds and
`"BBB"` fails replies with the single successful payload and carries no
failure entry and no failure reason for `"BBB"`. -/
theorem C4_counterexample :
    mixedFetch ("BBB".trim.toUpper) = .error ("No income data for " ++ "BBB") ∧
    POSTcore ["AAA", "BBB"] mixedFetch
      = .success [mkResponse "AAA" incomeA cashA none (some 0.34)] ∧
    carriedFailureReasons (POSTcore ["AAA", "BBB"] mixedFetch) = [] := by
  have e1 : ("AAA".trim.toUpper) = "AAA" := by decide
  have e2 : ("BBB".trim.toUpper) = "BBB" := by decide
  have hB : mixedFetch ("BBB".trim.toUpper) = .error ("No income data for " ++ "BBB") := by
    rw [e2, mixedFetch, if_neg (by decide), if_neg (by decide)]
    rw [fetchCompanyDataCore,
      if_pos (show ([] : List IncomeRow).length = 0 from rfl)]
  have hA : mixedFetch ("AAA".trim.toUpper)
      = .ok (mkResponse "AAA" incomeA cashA none (some 0.34)) := by
    rw [e1, mixedFetch, if_pos rfl, if_pos rfl]
    exact fetchCore_ok "AAA" incomeA cashA none (some 0.34)
      (by simp [incomeA]) (by simp [cashA])
  have hpost : POSTcore ["AAA", "BBB"] mixedFetch
      = .success [mkResponse "AAA" incomeA cashA none (some 0.34)] := by
    simp only [POSTcore]
    rw [if_neg (by simp)]
    simp only [List.take, List.map_cons, List.map_nil]
    rw [show runTicker mixedFetch "AAA"
        = .ok (mkResponse "AAA" incomeA cashA none (some 0.34)) by
      simp only [runTicker, hA]]
    rw [show runTicker mixedFetch "BBB"
        = .err ("BBB".toUpper) ("No income data for " ++ "BBB") by
      simp only [runTicker, hB]]
    rfl
  exact ⟨hB, hpost, by rw [hpost]; rfl⟩

/-- **C4** (amended): when at least one processed ticker's pipeline succeeds,
the handler replies with success flag true and exactly the successful
payloads in input order; the failed tickers' failure entries and reasons are
dropped from the reply (they are only logged server-side). -/
theorem C4_mixed_batch (tickers : List String)
    (fetch : String → Except String YFResponse)
    (h : ∃ t ∈ tickers.take 10, ∃ d, fetch t.trim.toUpper = .ok d) :
    POSTcore tickers fetch
      = .success ((tickers.take 10).filterMap (fun t => (fetch t.trim.toUpper).toOption)) ∧
    carriedFailureReasons (POSTcore tickers fetch) = [] := by
  obtain ⟨t0, ht0, d0, hd0⟩ := h
  have hne : tickers ≠ [] := by
    rintro rfl
    simp at ht0
  have hfm : ((tickers.take 10).map (runTicker fetch)).filterMap outcomeData
      = (tickers.take 10).filterMap (fun t => (fetch t.trim.toUpper).toOption) := by
    rw [List.filterMap_map]
    exact List.filterMap_congr (fun t _ => outcomeData_runTicker fetch t)
  have hmem : d0 ∈ (tickers.take 10).filterMap (fun t => (fetch t.trim.toUpper).toOption) :=
    List.mem_filterMap.mpr ⟨t0, ht0, by rw [hd0]; rfl⟩
  have hlen : ¬ ((tickers.take 10).filterMap
      (fun t => (fetch t.trim.toUpper).toOption)).length = 0 := by
    intro hl
    rw [List.length_eq_zero] at hl
    rw [hl] at hmem
    simp at hmem
  have hpost : POSTcore tickers fetch
      = .success ((tickers.take 10).filterMap (fun t => (fetch t.trim.toUpper).toOption)) := by
    simp only [POSTcore]
    rw [if_neg (fun h0 => hne (List.length_eq_zero.mp h0)), hfm, if_neg hlen]
  exact ⟨hpost, by rw [hpost]; rfl⟩

unseal String.mapAux Substring.takeWhileAux Substring.takeRightWhileAux in
/-- **C4** (witness): the amended theorem applied to the concrete mixed
batch. -/
theorem C4_mixed_batch_witness :
    POSTcore ["AAA", "BBB"] mixedFetch
      = .success ((["AAA", "BBB"].take 10).filterMap
          (fun t => (mixedFetch t.trim.toUpper).toOption)) ∧
    carriedFailureReasons (POSTcore ["AAA", "BBB"] mixedFetch) = [] := by
  apply C4_mixed_batch
  refine ⟨"AAA", by simp, mkResponse "AAA" incomeA cashA none (some 0.34), ?_⟩
  rw [show ("AAA".trim.toUpper) = "AAA" by decide, mixedFetch, if_pos rfl, if_pos rfl]
  exact fetchCore_ok "AAA" incomeA cashA none (some 0.34)
    (by simp [incomeA]) (by simp [cashA])

end ClaimsFour
